import Mathlib

/-!
Verification development for the IFS NEO data extractor (src/neorevue.py).

The data-transformation core of the script is embedded shallowly:

* JSON values and `flatten_json_safe` (source lines 21-36), with the Python
  dict built from the flattened pairs modelled as the list of pairs plus a
  distinct-key count (`pyDictSize`);
* the checklist extraction loop of `main` (source lines 646-676), with a
  field read that can raise modelled as `Except`;
* the non-conformity filter (source line 687) and the quick statistics
  (source lines 700-707);
* `generate_audit_summary` (source lines 94-159), with the Python float
  arithmetic of the compliance rate modelled as exact rational arithmetic
  and the "%.1f" format as round-half-even to one decimal;
* pandas DataFrames as a list of column names plus rows that are
  association lists from column name to cell text, and the Excel
  write/read layer (xlsxwriter / pd.read_excel) as the identity transport
  of such tables, so `save_work_to_excel` (source lines 164-332) produces a
  `Workbook` that `load_work_from_excel` (source lines 334-376) consumes;
* the legacy-column aliasing of the resumed-work page (source lines
  1158-1164, 1190-1200 and 1317-1336).

Missing dict keys and pandas KeyError / IndexError are modelled with
`Option` and `Except`.
-/

namespace NeoRevue

/-- A JSON value as handled by the script: objects, arrays and scalars. -/
inductive Json where
  | null : Json
  | bool : Bool → Json
  | num : Int → Json
  | str : String → Json
  | arr : List Json → Json
  | obj : List (String × Json) → Json

mutual

/-- Source lines 21-36, `flatten_json_safe(nested_json, parent_key, sep)`:
the ordered association list of (path, value) pairs from which the Python
dict is built.  A non-dict input (scalars, but also a list met outside a
dict value position) lands in the final `else` branch and is emitted whole
under `parent_key`. -/
def flatten_json_safe (nested_json : Json) (parent_key : String := "") (sep : String := "_") :
    List (String × Json) :=
  match nested_json with
  | .obj kvs => flattenFields kvs parent_key sep
  | j => [(parent_key, j)]

/-- The `for k, v in nested_json.items()` loop of `flatten_json_safe`. -/
def flattenFields (kvs : List (String × Json)) (parent_key sep : String) :
    List (String × Json) :=
  match kvs with
  | [] => []
  | (k, v) :: rest =>
    let new_key := if parent_key = "" then k else parent_key ++ sep ++ k
    (match v with
     | .obj kvs2 => flattenFields kvs2 new_key sep
     | .arr items => flattenElems items new_key sep 0
     | j => [(new_key, j)]) ++ flattenFields rest parent_key sep

/-- The `for i, item in enumerate(v)` loop of `flatten_json_safe`. -/
def flattenElems (items : List Json) (new_key sep : String) (i : Nat) :
    List (String × Json) :=
  match items with
  | [] => []
  | item :: rest =>
    flatten_json_safe item (new_key ++ sep ++ toString i) sep ++ flattenElems rest new_key sep (i + 1)

end

/-- The number of entries of the Python dict built by `dict(items)`: one per
distinct key (a later duplicate key overwrites, it does not add an entry). -/
def pyDictSize (items : List (String × Json)) : Nat :=
  (items.map Prod.fst).dedup.length

mutual

/-- The number of scalar leaves of a JSON value in the sense of the spec:
objects and arrays are both descended, everything else is one leaf. -/
def scalarLeaves : Json → Nat
  | .obj kvs => scalarLeavesFields kvs
  | .arr items => scalarLeavesElems items
  | _ => 1

/-- Leaf count of the fields of an object. -/
def scalarLeavesFields : List (String × Json) → Nat
  | [] => 0
  | (_, v) :: rest => scalarLeaves v + scalarLeavesFields rest

/-- Leaf count of the elements of an array. -/
def scalarLeavesElems : List Json → Nat
  | [] => 0
  | item :: rest => scalarLeaves item + scalarLeavesElems rest

end

mutual

/-- True when every array inside the value sits in an object-value position
and no array element is itself an array: exactly the shapes on which the
code descends every array that the leaf count descends. -/
def arraysTraversed : Json → Bool
  | .obj kvs => arraysTraversedFields kvs
  | .arr _ => false
  | _ => true

/-- `arraysTraversed` over the fields of an object (array values allowed). -/
def arraysTraversedFields : List (String × Json) → Bool
  | [] => true
  | (_, v) :: rest =>
    (match v with
     | .obj kvs2 => arraysTraversedFields kvs2
     | .arr items => arraysTraversedElems items
     | _ => true) && arraysTraversedFields rest

/-- `arraysTraversed` over the elements of an array (arrays not allowed). -/
def arraysTraversedElems : List Json → Bool
  | [] => true
  | item :: rest => arraysTraversed item && arraysTraversedElems rest

end

mutual

theorem length_flatten_json_safe :
    ∀ (j : Json) (pk sep : String), arraysTraversed j = true →
      (flatten_json_safe j pk sep).length = scalarLeaves j
  | .obj kvs, pk, sep, h => by
    simpa [flatten_json_safe, scalarLeaves] using
      length_flattenFields kvs pk sep (by simpa [arraysTraversed] using h)
  | .arr _, _, _, h => by simp [arraysTraversed] at h
  | .null, _, _, _ => by simp [flatten_json_safe, scalarLeaves]
  | .bool _, _, _, _ => by simp [flatten_json_safe, scalarLeaves]
  | .num _, _, _, _ => by simp [flatten_json_safe, scalarLeaves]
  | .str _, _, _, _ => by simp [flatten_json_safe, scalarLeaves]

theorem length_flattenFields :
    ∀ (kvs : List (String × Json)) (pk sep : String), arraysTraversedFields kvs = true →
      (flattenFields kvs pk sep).length = scalarLeavesFields kvs
  | [], _, _, _ => by simp [flattenFields, scalarLeavesFields]
  | (k, .obj kvs2) :: rest, pk, sep, h => by
    simp only [arraysTraversedFields, Bool.and_eq_true] at h
    have hv := length_flattenFields kvs2 (if pk = "" then k else pk ++ sep ++ k) sep h.1
    have hrest := length_flattenFields rest pk sep h.2
    simp [flattenFields, scalarLeavesFields, scalarLeaves, hv, hrest]
  | (k, .arr items) :: rest, pk, sep, h => by
    simp only [arraysTraversedFields, Bool.and_eq_true] at h
    have hv := length_flattenElems items (if pk = "" then k else pk ++ sep ++ k) sep 0 h.1
    have hrest := length_flattenFields rest pk sep h.2
    simp [flattenFields, scalarLeavesFields, scalarLeaves, hv, hrest]
  | (k, .null) :: rest, pk, sep, h => by
    simp only [arraysTraversedFields, Bool.and_eq_true] at h
    have hrest := length_flattenFields rest pk sep h.2
    simp [flattenFields, scalarLeavesFields, scalarLeaves, hrest]
    omega
  | (k, .bool _) :: rest, pk, sep, h => by
    simp only [arraysTraversedFields, Bool.and_eq_true] at h
    have hrest := length_flattenFields rest pk sep h.2
    simp [flattenFields, scalarLeavesFields, scalarLeaves, hrest]
    omega
  | (k, .num _) :: rest, pk, sep, h => by
    simp only [arraysTraversedFields, Bool.and_eq_true] at h
    have hrest := length_flattenFields rest pk sep h.2
    simp [flattenFields, scalarLeavesFields, scalarLeaves, hrest]
    omega
  | (k, .str _) :: rest, pk, sep, h => by
    simp only [arraysTraversedFields, Bool.and_eq_true] at h
    have hrest := length_flattenFields rest pk sep h.2
    simp [flattenFields, scalarLeavesFields, scalarLeaves, hrest]
    omega

theorem length_flattenElems :
    ∀ (items : List Json) (nk sep : String) (i : Nat), arraysTraversedElems items = true →
      (flattenElems items nk sep i).length = scalarLeavesElems items
  | [], _, _, _, _ => by simp [flattenElems, scalarLeavesElems]
  | item :: rest, nk, sep, i, h => by
    simp only [arraysTraversedElems, Bool.and_eq_true] at h
    have hv := length_flatten_json_safe item (nk ++ sep ++ toString i) sep h.1
    have hrest := length_flattenElems rest nk sep (i + 1) h.2
    simp [flattenElems, scalarLeavesElems, hv, hrest]

end

/-- An input on which two distinct leaves flatten to the same path: the dict
built from the flattened pairs keeps a single entry for the key a_b. -/
def collidingDoc : Json := .obj [("a", .obj [("b", .num 1)]), ("a_b", .num 2)]

/-- C2 counterexample: `collidingDoc` has two scalar leaves but the dict
returned by flatten_json_safe has one entry, so the entry count does not
equal the leaf count for every JSON value. -/
theorem c2_flatten_count_counterexample :
    pyDictSize (flatten_json_safe collidingDoc "" "_") = 1 ∧
      scalarLeaves collidingDoc = 2 ∧
      pyDictSize (flatten_json_safe collidingDoc "" "_") ≠ scalarLeaves collidingDoc := by
  refine ⟨by decide, by decide, by decide⟩

/-- C2 (amended): flatten_json_safe is total by construction, and the number
of entries of the returned dict equals the number of scalar leaves provided
every array of the input occurs as an object value with no array directly
inside an array, and the generated path keys are pairwise distinct (leaves
whose paths collide share one dict entry, and an array met outside an
object-value position is emitted whole as a single entry). -/
theorem c2_flatten_entry_count (v : Json)
    (harr : arraysTraversed v = true)
    (hkeys : ((flatten_json_safe v "" "_").map Prod.fst).Nodup) :
    pyDictSize (flatten_json_safe v "" "_") = scalarLeaves v := by
  unfold pyDictSize
  rw [List.dedup_eq_self.mpr hkeys, List.length_map]
  exact length_flatten_json_safe v "" "_" harr

/-- Witness for C2 at a concrete document with one object and one array. -/
theorem c2_flatten_entry_count_witness :
    pyDictSize (flatten_json_safe (Json.obj
        [("a", Json.arr [Json.num 1, Json.obj [("b", Json.num 2)]])]) "" "_") =
      scalarLeaves (Json.obj [("a", Json.arr [Json.num 1, Json.obj [("b", Json.num 2)]])]) :=
  c2_flatten_entry_count
    (Json.obj [("a", Json.arr [Json.num 1, Json.obj [("b", Json.num 2)]])])
    (by decide) (by decide)

/-! ## Checklist extraction (source lines 646-676) -/

/-- One checklist record as built by the extraction loop, source lines
666-676. -/
structure ChecklistItem where
  num : String
  uuid : String
  chapitre : String
  theme : String
  sstheme : String
  explication : String
  explicationDetaillee : String
  score : String
  reponse : String
deriving DecidableEq, Repr

/-- Lookup in a Python dict modelled as an association list with unique
keys. -/
def alookup {α : Type} : List (String × α) → String → Option α
  | [], _ => none
  | (k, v) :: rest, key => if k == key then some v else alookup rest key

/-- One row of the uuid_to_info mapping built from the UUID table, source
lines 632-640. -/
structure UuidInfo where
  num : String
  chapitre : String
  theme : String
  sstheme : String
deriving DecidableEq, Repr

/-- A scoring entry of resultScorings: the outer `Option`s model presence of
the answers and score keys in the JSON dict. -/
structure Scoring where
  answers : Option (List (String × String))
  score : Option (List (String × String))
deriving DecidableEq, Repr

/-- The four fields read off a scoring entry, source lines 661-664. -/
structure ScoringFields where
  explanationText : String
  detailedExplanation : String
  scoreLabel : String
  response : String
deriving DecidableEq, Repr

/-- Source lines 661-664: the three answers sub-fields default to "N/A" via
dict.get, while scoring["answers"] and scoring["score"]["label"] are direct
subscripts that raise KeyError when the key is missing (modelled as the
error branch). -/
def readScoringFields (scoring : Scoring) : Except String ScoringFields :=
  match scoring.answers with
  | none => .error "KeyError: answers"
  | some answers =>
    let explanation_text := (alookup answers "englishExplanationText").getD "N/A"
    let detailed_explanation := (alookup answers "explanationText").getD "N/A"
    match scoring.score with
    | none => .error "KeyError: score"
    | some score =>
      match alookup score "label" with
      | none => .error "KeyError: label"
      | some score_label =>
        let response := (alookup answers "fieldAnswers").getD "N/A"
        .ok ⟨explanation_text, detailed_explanation, score_label, response⟩

/-- Source lines 646-658 plus 666-676: the record appended for one
(uuid, scoring) pair, after its fields were read.  A uuid absent from the
table keeps the raw uuid as display number and "N/A" for chapter, theme and
sub-theme. -/
def checklistRecord (uuid_to_info : List (String × UuidInfo)) (uuid : String)
    (f : ScoringFields) : ChecklistItem :=
  match alookup uuid_to_info uuid with
  | some info =>
    ⟨info.num, uuid, info.chapitre, info.theme, info.sstheme,
      f.explanationText, f.detailedExplanation, f.scoreLabel, f.response⟩
  | none =>
    ⟨uuid, uuid, "N/A", "N/A", "N/A",
      f.explanationText, f.detailedExplanation, f.scoreLabel, f.response⟩

/-- The `for uuid, scoring in result_scorings.items()` loop, source lines
646-676: a raising field read aborts the whole extraction (the exception
propagates to the handler at source line 1104). -/
def extractChecklist (uuid_to_info : List (String × UuidInfo)) :
    List (String × Scoring) → Except String (List ChecklistItem)
  | [] => .ok []
  | (uuid, scoring) :: rest =>
    match readScoringFields scoring with
    | .error e => .error e
    | .ok f =>
      match extractChecklist uuid_to_info rest with
      | .error e => .error e
      | .ok items => .ok (checklistRecord uuid_to_info uuid f :: items)

/-- Source line 687: the non-conformity filter over the extracted checklist
records. -/
def non_conformities (checklist_data : List ChecklistItem) : List ChecklistItem :=
  checklist_data.filter (fun item => !(["A", "N/A", "NA", "Non applicable"].contains item.score))

/-- Source line 700: the "Conformes" quick statistic. -/
def quickConformes (checklist_data : List ChecklistItem) : Nat :=
  (checklist_data.filter (fun item => ["A", "NA"].contains item.score)).length

/-- C3: the non-conformity filter returns an order-preserving subsequence of
its input consisting of exactly the records whose score label is not an
exact member of the set containing A, NA, N/A and Non applicable. -/
theorem c3_nc_filter (R : List ChecklistItem) :
    (non_conformities R).Sublist R ∧
      ∀ r, r ∈ non_conformities R ↔
        r ∈ R ∧ r.score ∉ (["A", "NA", "N/A", "Non applicable"] : List String) := by
  refine ⟨List.filter_sublist R, fun r => ?_⟩
  simp only [non_conformities, List.mem_filter, Bool.not_eq_true', List.contains_eq_any_beq,
    List.any_cons, List.any_nil, Bool.or_eq_false_iff, beq_eq_false_iff_ne, ne_eq,
    List.mem_cons, List.not_mem_nil, or_false]
  tauto

/-- When the extraction of one cons cell succeeds, both its head read and
the rest succeed and the result is the record followed by the rest. -/
theorem extractChecklist_cons_ok (table : List (String × UuidInfo)) (uuid : String)
    (scoring : Scoring) (rest : List (String × Scoring)) (items : List ChecklistItem) :
    extractChecklist table ((uuid, scoring) :: rest) = .ok items ↔
      ∃ f tl, readScoringFields scoring = .ok f ∧ extractChecklist table rest = .ok tl ∧
        items = checklistRecord table uuid f :: tl := by
  cases hf : readScoringFields scoring with
  | error e => simp [extractChecklist, hf]
  | ok f =>
    cases hrest : extractChecklist table rest with
    | error e => simp [extractChecklist, hf, hrest]
    | ok tl =>
      simp only [extractChecklist, hf, hrest]
      constructor
      · rintro h
        injection h with h
        exact ⟨f, tl, rfl, rfl, h.symm⟩
      · rintro ⟨f2, tl2, hf2, htl2, hit⟩
        injection hf2 with hf2
        injection htl2 with htl2
        subst hf2; subst htl2; subst hit; rfl

/-- C4: when the extraction loop completes, it yields exactly one record per
scoring entry in document order (no entry present in the source document is
dropped), and an entry whose uuid is absent from the external table gets
the raw uuid as display number and "N/A" chapter, theme and sub-theme. -/
theorem c4_resolution_fallback (table : List (String × UuidInfo))
    (es : List (String × Scoring)) (items : List ChecklistItem)
    (h : extractChecklist table es = .ok items) :
    items.length = es.length ∧
      ∀ p ∈ es.zip items, alookup table p.1.1 = none →
        p.2.num = p.1.1 ∧ p.2.uuid = p.1.1 ∧ p.2.chapitre = "N/A" ∧
          p.2.theme = "N/A" ∧ p.2.sstheme = "N/A" := by
  induction es generalizing items with
  | nil =>
    simp only [extractChecklist, Except.ok.injEq] at h
    subst h
    simp
  | cons e rest ih =>
    obtain ⟨uuid, scoring⟩ := e
    rw [extractChecklist_cons_ok] at h
    obtain ⟨f, tl, _, htl, hit⟩ := h
    subst hit
    obtain ⟨ih1, ih2⟩ := ih tl htl
    refine ⟨by simp [ih1], ?_⟩
    intro p hp hnone
    rw [List.zip_cons_cons, List.mem_cons] at hp
    rcases hp with hp | hp
    · subst hp
      simp only at hnone ⊢
      simp [checklistRecord, hnone]
    · exact ih2 p hp hnone

/-- A concrete scoring entry with all keys present. -/
def witnessScoring : Scoring :=
  ⟨some [("englishExplanationText", "exigence")], some [("label", "C")]⟩

/-- The record the extraction loop builds for `witnessScoring` under an
empty uuid table. -/
def witnessRecord : ChecklistItem :=
  ⟨"uuid-1", "uuid-1", "N/A", "N/A", "N/A", "exigence", "N/A", "C", "N/A"⟩

/-- Witness for C4: one scoring entry whose uuid is absent from the table
still yields a record, with the fallback display fields. -/
theorem c4_resolution_fallback_witness :
    ([witnessRecord] : List ChecklistItem).length = [("uuid-1", witnessScoring)].length ∧
      ∀ p ∈ [("uuid-1", witnessScoring)].zip [witnessRecord],
        alookup ([] : List (String × UuidInfo)) p.1.1 = none →
        p.2.num = p.1.1 ∧ p.2.uuid = p.1.1 ∧ p.2.chapitre = "N/A" ∧
          p.2.theme = "N/A" ∧ p.2.sstheme = "N/A" :=
  c4_resolution_fallback [] [("uuid-1", witnessScoring)] [witnessRecord] rfl

/-- A scoring entry whose score key is absent. -/
def scoringNoScore : Scoring := ⟨some [], none⟩

/-- C5 counterexample: a scoring entry with an answers dict but no score key
makes the field reads raise a KeyError instead of substituting the sentinel,
so the reads are not exception-free for every scoring entry. -/
theorem c5_reads_counterexample :
    readScoringFields scoringNoScore = .error "KeyError: score" := rfl

/-- C5 (amended): only the explanation text, detailed explanation and
free-text response substitute "N/A" when the field is missing; the answers
dict and the score label are read by direct subscript, so the reads succeed
exactly when answers, score and label are all present, and then the three
defaulted fields carry what dict.get returns. -/
theorem c5_field_reads (scoring : Scoring) :
    ((∃ f, readScoringFields scoring = .ok f) ↔
      (∃ answers, scoring.answers = some answers) ∧
        ∃ sc label, scoring.score = some sc ∧ alookup sc "label" = some label) ∧
      ∀ answers sc label, scoring.answers = some answers → scoring.score = some sc →
        alookup sc "label" = some label →
        readScoringFields scoring = .ok
          ⟨(alookup answers "englishExplanationText").getD "N/A",
            (alookup answers "explanationText").getD "N/A", label,
            (alookup answers "fieldAnswers").getD "N/A"⟩ := by
  obtain ⟨ans, sc⟩ := scoring
  constructor
  · cases ans with
    | none => simp [readScoringFields]
    | some answers =>
      cases sc with
      | none => simp [readScoringFields]
      | some s =>
        cases hl : alookup s "label" with
        | none => simp [readScoringFields, hl]
        | some l => simp [readScoringFields, hl]
  · intro answers s l h1 h2 h3
    have h1' : ans = some answers := h1
    have h2' : sc = some s := h2
    subst h1'; subst h2'
    simp [readScoringFields, h3]

/-! ## DataFrames and workbooks -/

/-- One spreadsheet row: an association list from column name to cell
text. -/
abbrev Row := List (String × String)

/-- A pandas DataFrame as the script uses it: ordered column names plus rows
keyed by column name. -/
structure DF where
  cols : List String
  rows : List Row
deriving DecidableEq, Repr

/-- Cell of a row in a named column. -/
def getCell (r : Row) (c : String) : Option String := alookup r c

/-- Membership test `c in df.columns`. -/
def DF.hasCol (df : DF) (c : String) : Bool := df.cols.contains c

/-- Overwrite or append the binding of one column in one row. -/
def setCell (r : Row) (c v : String) : Row :=
  match r with
  | [] => [(c, v)]
  | (c2, v2) :: rest => if c2 == c then (c, v) :: rest else (c2, v2) :: setCell rest c v

/-- Assignment `df[c] = v` for a scalar v: the constant lands in every row
and the column name is appended when new. -/
def DF.setColConst (df : DF) (c v : String) : DF :=
  ⟨if df.hasCol c then df.cols else df.cols ++ [c],
   df.rows.map (fun r => setCell r c v)⟩

/-- Assignment `df[c] = vals` for a column of values aligned by position. -/
def DF.setColVals (df : DF) (c : String) (vals : List String) : DF :=
  ⟨if df.hasCol c then df.cols else df.cols ++ [c],
   (df.rows.zip vals).map (fun p => setCell p.1 c p.2)⟩

/-- The values of one column, row by row (none where a row has no
binding). -/
def DF.colVals (df : DF) (c : String) : List (Option String) :=
  df.rows.map (fun r => getCell r c)

/-- The text of one column with missing cells read as empty. -/
def DF.colStr (df : DF) (c : String) : List String :=
  df.rows.map (fun r => (getCell r c).getD "")

/-! ## Audit summary (source lines 94-159) -/

/-- Round a/b to the nearest integer for 0 ≤ a and 0 < b, ties to even: the
rounding of Python float formatting.  The float value (a/b in the code) is
modelled as the exact rational, its binary representation error left out. -/
def roundHalfEvenDiv (a b : ℤ) : ℤ :=
  let q := a / b
  let r := a % b
  if 2 * r < b then q
  else if b < 2 * r then q + 1
  else if q % 2 = 0 then q else q + 1

/-- The f-string "{(a / b) * 100:.1f}" of the code: the percentage a/b
rendered with one digit after the point. -/
def pyPct1f (a b : ℤ) : String :=
  let t := roundHalfEvenDiv (a * 1000) b
  toString (t / 10) ++ "." ++ toString (t % 10)

/-- The two-decimal rendering of the percentage a/b that claim C9 asserts,
built from the words of the spec for comparison with the code's one-decimal
rendering. -/
def specPct2f (a b : ℤ) : String :=
  let t := roundHalfEvenDiv (a * 10000) b
  toString (t / 100) ++ "." ++ (if t % 100 < 10 then "0" else "") ++ toString (t % 100)

/-- `value_counts().get(label, 0)` over a column of texts. -/
def valueCount (col : List String) (label : String) : Int :=
  (col.filter (fun s => s == label)).length

/-- The dict built by `set_index(...)[...].to_dict()`: a later duplicate key
wins. -/
def lastLookup (l : List (String × String)) (k : String) : Option String :=
  alookup l.reverse k

/-- A cell of the summary sheet: the code stores both counts and texts. -/
inductive SVal where
  | i : Int → SVal
  | s : String → SVal
deriving DecidableEq, Repr

/-- One row of the audit summary, source lines 104-157. -/
structure SummaryRow where
  metrique : String
  valeur : SVal
  description : String
deriving DecidableEq, Repr

/-- generate_audit_summary, source lines 94-159.  `now` stands for
datetime.now(); the result errors when a nonempty checklist has no Score
column (checklist_df["Score"] raises there, source line 101). -/
def generate_audit_summary (checklist_df nc_df profile_df : DF) (now : String) :
    Except String (List SummaryRow) :=
  if !checklist_df.rows.isEmpty && !checklist_df.hasCol "Score" then
    .error "KeyError: Score"
  else
    let part1 : List SummaryRow :=
      if checklist_df.rows.isEmpty then [] else
        let total_requirements : Int := checklist_df.rows.length
        let scores := checklist_df.colStr "Score"
        [⟨"Total des exigences", .i total_requirements, "Nombre total d\x27exigences auditées"⟩,
         ⟨"Score A (Conforme)", .i (valueCount scores "A"), "Exigences entièrement conformes"⟩,
         ⟨"Score B (Écart mineur)", .i (valueCount scores "B"), "Écarts mineurs détectés"⟩,
         ⟨"Score C (Écart majeur)", .i (valueCount scores "C"), "Écarts majeurs détectés"⟩,
         ⟨"Score D (Critique)", .i (valueCount scores "D"), "Non-conformités critiques"⟩,
         ⟨"Score NA (Non applicable)", .i (valueCount scores "NA"), "Exigences non applicables"⟩] ++
        (let conformes := valueCount scores "A" + valueCount scores "NA"
         if 0 < total_requirements then
           [⟨"Taux de conformité (%)",
             .s (pyPct1f conformes total_requirements ++ "%"),
             "Pourcentage d\x27exigences conformes ou non applicables"⟩]
         else [])
    let part2 : List SummaryRow :=
      if nc_df.rows.isEmpty then [] else
        let nc_total : Int := nc_df.rows.length
        let statusCount := fun (label : String) =>
          if nc_df.hasCol "Statut" then valueCount (nc_df.colStr "Statut") label else 0
        [⟨"Non-conformités totales", .i nc_total, "Nombre total de non-conformités (B, C, D)"⟩,
         ⟨"Actions terminées", .i (statusCount "Terminé"), "Actions correctives terminées"⟩,
         ⟨"Actions en cours", .i (statusCount "En cours"), "Actions correctives en cours"⟩,
         ⟨"Actions en attente", .i (statusCount "En attente"), "Actions correctives en attente"⟩] ++
        (if 0 < nc_total then
           [⟨"Taux de résolution (%)",
             .s (pyPct1f (statusCount "Terminé") nc_total ++ "%"),
             "Pourcentage d\x27actions correctives terminées"⟩]
         else [])
    let part3 : List SummaryRow :=
      if profile_df.rows.isEmpty then [] else
        let company_info : List (String × String) :=
          if profile_df.hasCol "Champ" && profile_df.hasCol "Valeur" then
            profile_df.rows.map (fun r => ((getCell r "Champ").getD "", (getCell r "Valeur").getD ""))
          else []
        [⟨"Entreprise auditée", .s ((lastLookup company_info "Nom du site à auditer").getD "N/A"),
          "Nom de l\x27entreprise"⟩,
         ⟨"COID", .s ((lastLookup company_info "N° COID du portail").getD "N/A"), "Numéro COID"⟩,
         ⟨"Pays", .s ((lastLookup company_info "Pays").getD "N/A"), "Pays du site audité"⟩,
         ⟨"Date d\x27export", .s now, "Date et heure de génération du rapport"⟩]
    .ok (part1 ++ part2 ++ part3)

/-- First summary row with the given metric label. -/
def getMetric (rows : List SummaryRow) (m : String) : Option SVal :=
  (rows.find? (fun row => row.metrique == m)).map SummaryRow.valeur

/-- C9 (amended): for a nonempty checklist the statistics sheet states the
compliance percentage as (count of score A + count of score NA) divided by
the total, times 100, rendered to ONE decimal place, not two. -/
theorem c9_compliance_rate (checklist_df nc_df profile_df : DF) (now : String)
    (hne : checklist_df.rows ≠ []) (hcol : checklist_df.hasCol "Score" = true) :
    (generate_audit_summary checklist_df nc_df profile_df now).map
        (fun rows => getMetric rows "Taux de conformité (%)") =
      .ok (some (.s (pyPct1f
        (valueCount (checklist_df.colStr "Score") "A" +
          valueCount (checklist_df.colStr "Score") "NA")
        (checklist_df.rows.length : ℤ) ++ "%"))) := by
  have hE : checklist_df.rows.isEmpty = false := by
    simpa [List.isEmpty_iff] using hne
  have hpos : (0 : ℤ) < (checklist_df.rows.length : ℤ) := by
    exact_mod_cast List.length_pos.mpr hne
  simp [generate_audit_summary, hE, hcol, hpos, getMetric, List.find?_cons, Except.map]

/-- A checklist table giving a compliance rate of one third. -/
def complianceDF : DF := ⟨["Score"], [[("Score", "A")], [("Score", "B")], [("Score", "B")]]⟩

/-- C9 counterexample: with one of three requirements scored A the code
prints 33.3% (one decimal), while the two-decimal rendering the claim
asserts is 33.33%. -/
theorem c9_rate_counterexample :
    (generate_audit_summary complianceDF ⟨[], []⟩ ⟨[], []⟩ "now").map
        (fun rows => getMetric rows "Taux de conformité (%)") = .ok (some (.s "33.3%")) ∧
      specPct2f 1 3 = "33.33" ∧ ("33.3%" : String) ≠ "33.33%" :=
  ⟨rfl, by decide, by decide⟩

/-- Witness for C9 at the same concrete table. -/
theorem c9_compliance_rate_witness :
    (generate_audit_summary complianceDF ⟨[], []⟩ ⟨[], []⟩ "now").map
        (fun rows => getMetric rows "Taux de conformité (%)") =
      .ok (some (.s (pyPct1f
        (valueCount (complianceDF.colStr "Score") "A" +
          valueCount (complianceDF.colStr "Score") "NA")
        (complianceDF.rows.length : ℤ) ++ "%"))) :=
  c9_compliance_rate complianceDF ⟨[], []⟩ ⟨[], []⟩ "now" (by decide) (by decide)

/-- The quick conformes statistic counts exactly the records scored A plus
those scored NA. -/
theorem quickConformes_eq_counts (cd : List ChecklistItem) :
    quickConformes cd =
      cd.countP (fun i => i.score == "A") + cd.countP (fun i => i.score == "NA") := by
  induction cd with
  | nil => rfl
  | cons i cd ih =>
    by_cases hA : i.score = "A" <;> by_cases hNA : i.score = "NA" <;>
      simp_all [quickConformes, List.countP_cons, List.contains_eq_any_beq, List.filter_cons,
        hA, hNA] <;> omega

/-- A record scored A or NA is excluded by the non-conformity filter, so the
two counts never overlap. -/
theorem conformes_add_nc_le (cd : List ChecklistItem) :
    quickConformes cd + (non_conformities cd).length ≤ cd.length := by
  induction cd with
  | nil => simp [quickConformes, non_conformities]
  | cons i cd ih =>
    by_cases hA : i.score = "A" <;> by_cases hNA : i.score = "NA" <;>
      by_cases hN : i.score = "N/A" <;> by_cases hP : i.score = "Non applicable" <;>
      simp_all [quickConformes, non_conformities, List.contains_eq_any_beq,
        List.filter_cons] <;> omega

/-- The record scored N/A used to separate compliant, non-conforming and
total counts. -/
def naScored : ChecklistItem :=
  ⟨"1.1.1", "uuid-na", "1", "t", "s", "exp", "det", "N/A", "rep"⟩

/-- C10: the compliant count (quick statistic and summary numerator) is
exactly the number of records scored literally A or NA; compliant plus
non-conformities never exceeds the total, and a record scored N/A counts in
neither, so the sum can be strictly below the total. -/
theorem c10_compliant_count :
    (∀ cd : List ChecklistItem,
        quickConformes cd =
          cd.countP (fun i => i.score == "A") + cd.countP (fun i => i.score == "NA")) ∧
      (∀ scores : List String,
        valueCount scores "A" + valueCount scores "NA" =
          (scores.countP (fun s => s == "A") : ℤ) + (scores.countP (fun s => s == "NA") : ℤ)) ∧
      (∀ cd : List ChecklistItem, quickConformes cd + (non_conformities cd).length ≤ cd.length) ∧
      quickConformes [naScored] + (non_conformities [naScored]).length < [naScored].length := by
  refine ⟨quickConformes_eq_counts, ?_, conformes_add_nc_le, by decide⟩
  intro scores
  simp [valueCount, List.countP_eq_length_filter]

/-! ## Work save export (source lines 164-332) -/

/-- The assignment `df[c] = df.get(src, "")` of source line 233: the source
column when present, else the scalar default broadcast to every row. -/
def DF.setColFromGet (df : DF) (c src : String) : DF :=
  if df.hasCol src then df.setColVals c (df.colStr src)
  else df.setColConst c ""

/-- Source lines 231-235 and 258-262 (the same block appears for the profile
and the checklist sheet): ensure the two communication columns exist. -/
def ensureCommCols (df : DF) : DF :=
  let df1 := if df.hasCol "Commentaire du reviewer" then df
    else df.setColFromGet "Commentaire du reviewer" "Commentaire"
  if df1.hasCol "Réponse de l\x27auditeur" then df1
  else df1.setColConst "Réponse de l\x27auditeur" ""

/-- Source lines 297-300: the communication and tracking columns of the
non-conformity sheet.  The same list reappears as required_nc_columns at
source lines 1320-1323 and 1608-1611. -/
def communication_columns : List String :=
  ["Commentaire du reviewer", "Réponse de l\x27auditeur", "Plan d\x27action proposé",
   "Actions mises en place", "Date limite", "Responsable", "Statut"]

/-- One step of the fill loop at source lines 302-307 (also 1325-1330 and
1612-1617): a missing column is synthesized, Statut with the En attente
default and every other with the empty string. -/
def ncFillStep (acc : DF) (col : String) : DF :=
  if acc.hasCol col then acc
  else if col == "Statut" then acc.setColConst col "En attente"
  else acc.setColConst col ""

/-- The fill loop over `communication_columns`, source lines 302-307. -/
def ensureNCCols (df : DF) : DF :=
  communication_columns.foldl ncFillStep df

/-- Source lines 226-229: the profile sheet built from profile_data when no
edited table exists. -/
def profileFromData (profile_data : List (String × String)) : DF :=
  ⟨["Champ", "Valeur", "Commentaire du reviewer", "Réponse de l\x27auditeur"],
   profile_data.map (fun p =>
     [("Champ", p.1), ("Valeur", p.2), ("Commentaire du reviewer", ""),
      ("Réponse de l\x27auditeur", "")])⟩

/-- The columns of pd.DataFrame(checklist_data), in the insertion order of
the record dict built at source lines 666-676. -/
def checklistCols : List String :=
  ["Num", "UUID", "Chapitre", "Theme", "SSTheme", "Explication",
   "Explication détaillée", "Score", "Réponse"]

/-- One checklist record as a sheet row. -/
def rowOfItem (item : ChecklistItem) : Row :=
  [("Num", item.num), ("UUID", item.uuid), ("Chapitre", item.chapitre),
   ("Theme", item.theme), ("SSTheme", item.sstheme), ("Explication", item.explication),
   ("Explication détaillée", item.explicationDetaillee), ("Score", item.score),
   ("Réponse", item.reponse)]

/-- Source lines 254-256: the checklist sheet built from checklist_data when
no edited table exists. -/
def checklistFromData (checklist_data : List ChecklistItem) : DF :=
  ((⟨checklistCols, checklist_data.map rowOfItem⟩ : DF).setColConst
      "Commentaire du reviewer" "").setColConst "Réponse de l\x27auditeur" ""

/-- Source lines 287-294: the non-conformity sheet built from the filtered
records when no edited table exists. -/
def ncFromData (non_conf : List ChecklistItem) : DF :=
  (((((((⟨checklistCols, non_conf.map rowOfItem⟩ : DF).setColConst
      "Commentaire du reviewer" "").setColConst "Réponse de l\x27auditeur" "").setColConst
      "Plan d\x27action proposé" "").setColConst "Actions mises en place" "").setColConst
      "Date limite" "").setColConst "Responsable" "").setColConst "Statut" "En attente"

/-- A workbook: named sheets in write order.  The binary Excel layer
(xlsxwriter on write, pd.read_excel on read) is modelled as the identity
transport of these tables; styling-only calls are dropped. -/
abbrev Workbook := List (String × DF)

/-- `sheet_name in excel_data` together with `excel_data[sheet_name]`. -/
def lookupSheet (wb : Workbook) (name : String) : Option DF := alookup wb name

/-- save_work_to_excel, source lines 164-332: the metadata sheet, the
profile and checklist communication sheets, and the non-conformity sheet
only when the non_conformities argument is nonempty (source line 283).  The
`now` argument stands for pd.Timestamp.now(). -/
def save_work_to_excel (profile_data : List (String × String))
    (checklist_data non_conf : List ChecklistItem)
    (edited_profile edited_checklist edited_nc : Option DF)
    (coid now : String) : Workbook :=
  let company_name := (alookup profile_data "Nom du site à auditer").getD "entreprise_inconnue"
  let metadata : DF :=
    ⟨["Type", "COID", "Company_Name", "Date", "Purpose"],
     [[("Type", "IFS_WORK_SAVE"), ("COID", coid), ("Company_Name", company_name),
       ("Date", now), ("Purpose", "Communication Reviewer/Auditeur")]]⟩
  let profile_save_df := ensureCommCols (edited_profile.getD (profileFromData profile_data))
  let checklist_save_df := ensureCommCols (edited_checklist.getD (checklistFromData checklist_data))
  let base := [("METADATA", metadata), ("Profile_Communication", profile_save_df),
    ("Checklist_Communication", checklist_save_df)]
  if non_conf.isEmpty then base
  else base ++ [("NonConformities_ActionPlan", ensureNCCols (edited_nc.getD (ncFromData non_conf)))]

/-! ## Work save import (source lines 334-376) -/

/-- The per-collection tables load_work_from_excel returns. -/
structure WorkData where
  profile : Option DF
  checklist : Option DF
  nc : Option DF
deriving DecidableEq, Repr

/-- The current-name-then-legacy-name sheet search of source lines
350-366. -/
def firstSheet (wb : Workbook) (n1 n2 : String) : Option DF :=
  match lookupSheet wb n1 with
  | some df => some df
  | none => lookupSheet wb n2

/-- load_work_from_excel, source lines 334-376.  Every exception of the
body is caught at source line 375 and turned into an error result, so a
metadata sheet without a first row (iloc[0], an IndexError) or without the
Type, COID or Date column (a KeyError) also comes back as an error
message. -/
def load_work_from_excel (excel_data : Workbook) : Except String WorkData :=
  match lookupSheet excel_data "METADATA" with
  | none => .error "Ce fichier n\x27est pas un fichier de travail sauvegardé."
  | some metadata =>
    match metadata.rows.head? with
    | none => .error "Erreur lors du chargement du fichier de travail: IndexError"
    | some row0 =>
      match getCell row0 "Type" with
      | none => .error "Erreur lors du chargement du fichier de travail: KeyError: Type"
      | some ty =>
        if ty ≠ "IFS_WORK_SAVE" then
          .error "Ce fichier n\x27est pas un fichier de travail IFS valide."
        else
          let profile := firstSheet excel_data "Profile_Communication" "Profile_Work"
          let checklist := firstSheet excel_data "Checklist_Communication" "Checklist_Work"
          let nc := firstSheet excel_data "NonConformities_ActionPlan" "NonConformities_Work"
          match getCell row0 "COID" with
          | none => .error "Erreur lors du chargement du fichier de travail: KeyError: COID"
          | some _ =>
            match getCell row0 "Date" with
            | none => .error "Erreur lors du chargement du fichier de travail: KeyError: Date"
            | some _ => .ok ⟨profile, checklist, nc⟩

/-! ## Resumed-work page (source lines 1140-1498) -/

/-- Source line 1159. -/
def required_profile_columns : List String :=
  ["Champ", "Valeur", "Commentaire du reviewer", "Réponse de l\x27auditeur"]

/-- clean_dataframe_for_editor, source lines 46-65: missing required columns
are added empty, cells are read as text with NaN as the empty string, and
only the required columns survive, in their order. -/
def clean_dataframe_for_editor (df : DF) (required : List String) : DF :=
  if df.rows.isEmpty then ⟨required, []⟩
  else ⟨required, df.rows.map (fun r => required.map (fun c => (c, (getCell r c).getD "")))⟩

/-- The profile tab of the resumed-work page, source lines 1158-1164: the
cleaned table, with the legacy Commentaire column of the ORIGINAL sheet
copied onto Commentaire du reviewer when the original lacks the current
name. -/
def profileTabTransform (orig : DF) : DF :=
  let cleaned := clean_dataframe_for_editor orig required_profile_columns
  if orig.hasCol "Commentaire" && !(orig.hasCol "Commentaire du reviewer") then
    cleaned.setColVals "Commentaire du reviewer" (orig.colStr "Commentaire")
  else cleaned

/-- The checklist tab of the resumed-work page, source lines 1190-1200:
legacy Commentaire is copied onto a missing Commentaire du reviewer, then
the auditor column is ensured. -/
def checklistTabTransform (orig : DF) : DF :=
  let df1 := if orig.hasCol "Commentaire du reviewer" then orig
    else if orig.hasCol "Commentaire" then
      orig.setColVals "Commentaire du reviewer" (orig.colStr "Commentaire")
    else orig.setColConst "Commentaire du reviewer" ""
  if df1.hasCol "Réponse de l\x27auditeur" then df1
  else df1.setColConst "Réponse de l\x27auditeur" ""

/-- The non-conformities tab of the resumed-work page, source lines
1317-1336: the required-columns loop of lines 1325-1330 runs FIRST, so the
legacy checks of lines 1333-1336 see the columns it just created and never
fire. -/
def ncTabTransform (orig : DF) : DF :=
  let df1 := communication_columns.foldl ncFillStep orig
  let df2 := if df1.hasCol "Commentaire" && !(df1.hasCol "Commentaire du reviewer") then
      df1.setColVals "Commentaire du reviewer" (df1.colStr "Commentaire")
    else df1
  if df2.hasCol "Plan d\x27action" && !(df2.hasCol "Plan d\x27action proposé") then
    df2.setColVals "Plan d\x27action proposé" (df2.colStr "Plan d\x27action")
  else df2

/-! ## Row and column lemmas -/

theorem map_const_replicate {α β : Type} (l : List α) (b : β) :
    l.map (fun _ => b) = List.replicate l.length b := by
  induction l <;> simp_all [List.replicate_succ]

theorem getCell_setCell_self (r : Row) (c v : String) :
    getCell (setCell r c v) c = some v := by
  induction r with
  | nil => simp [setCell, getCell, alookup]
  | cons p rest ih =>
    obtain ⟨k, w⟩ := p
    by_cases h : k = c
    · subst h; simp [setCell, getCell, alookup]
    · simpa [setCell, getCell, alookup, h] using ih

theorem getCell_setCell_ne (r : Row) (c v c2 : String) (h : c2 ≠ c) :
    getCell (setCell r c v) c2 = getCell r c2 := by
  induction r with
  | nil => simp [setCell, getCell, alookup, Ne.symm h]
  | cons p rest ih =>
    obtain ⟨k, w⟩ := p
    by_cases hk : k = c
    · subst hk; simp [setCell, getCell, alookup, Ne.symm h]
    · by_cases hk2 : k = c2
      · subst hk2; simp [setCell, getCell, alookup, hk]
      · simpa [setCell, getCell, alookup, hk, hk2] using ih

theorem hasCol_iff (df : DF) (c : String) : df.hasCol c = true ↔ c ∈ df.cols := by
  simp [DF.hasCol, List.contains_eq_any_beq, List.any_eq_true]

theorem rows_length_setColConst (df : DF) (c v : String) :
    (df.setColConst c v).rows.length = df.rows.length := by
  simp [DF.setColConst]

theorem hasCol_setColConst_self (df : DF) (c v : String) :
    (df.setColConst c v).hasCol c = true := by
  rw [hasCol_iff]
  by_cases hc : df.hasCol c
  · simpa [DF.setColConst, hc] using (hasCol_iff df c).mp hc
  · simp [DF.setColConst, hc]

theorem hasCol_setColConst_of (df : DF) (c v c2 : String) (h : df.hasCol c2 = true) :
    (df.setColConst c v).hasCol c2 = true := by
  rw [hasCol_iff] at h ⊢
  by_cases hc : c ∈ df.cols <;> simp [DF.setColConst, DF.hasCol, hc, List.mem_append, h]

theorem hasCol_setColConst_ne (df : DF) (c v c2 : String) (h : c2 ≠ c) :
    (df.setColConst c v).hasCol c2 = df.hasCol c2 := by
  by_cases hc : df.hasCol c
  · have hmem : c ∈ df.cols := (hasCol_iff df c).mp hc
    simp [DF.setColConst, DF.hasCol, hmem]
  · cases hb : df.hasCol c2 with
    | true => rw [hasCol_setColConst_of df c v c2 hb]
    | false =>
      rw [Bool.eq_false_iff]
      intro hcontra
      rw [hasCol_iff] at hcontra
      simp only [DF.setColConst, if_neg hc] at hcontra
      rcases List.mem_append.mp hcontra with hm | hm
      · exact absurd ((hasCol_iff df c2).mpr hm) (by simp [hb])
      · exact h (List.mem_singleton.mp hm)

theorem colVals_setColConst_self (df : DF) (c v : String) :
    (df.setColConst c v).colVals c = List.replicate df.rows.length (some v) := by
  simp only [DF.colVals, DF.setColConst, List.map_map]
  rw [show ((fun r => getCell r c) ∘ fun r => setCell r c v) = fun (_ : Row) => some v from
    funext fun r => getCell_setCell_self r c v]
  exact map_const_replicate df.rows (some v)

theorem colVals_setColConst_ne (df : DF) (c v c2 : String) (h : c2 ≠ c) :
    (df.setColConst c v).colVals c2 = df.colVals c2 := by
  simp only [DF.colVals, DF.setColConst, List.map_map]
  exact List.map_congr_left fun r _ => getCell_setCell_ne r c v c2 h

theorem zip_setCell_getCell_self (rs : List Row) (vals : List String) (c : String)
    (h : vals.length = rs.length) :
    ((rs.zip vals).map (fun p => setCell p.1 c p.2)).map (fun r => getCell r c) =
      vals.map some := by
  induction rs generalizing vals with
  | nil => cases vals <;> simp_all
  | cons r rs ih =>
    cases vals with
    | nil => simp at h
    | cons v vs =>
      simp only [List.length_cons, Nat.succ.injEq] at h
      simp [getCell_setCell_self, ih vs h]

theorem zip_setCell_getCell_ne (rs : List Row) (vals : List String) (c c2 : String)
    (hne : c2 ≠ c) (h : vals.length = rs.length) :
    ((rs.zip vals).map (fun p => setCell p.1 c p.2)).map (fun r => getCell r c2) =
      rs.map (fun r => getCell r c2) := by
  induction rs generalizing vals with
  | nil => cases vals <;> simp_all
  | cons r rs ih =>
    cases vals with
    | nil => simp at h
    | cons v vs =>
      simp only [List.length_cons, Nat.succ.injEq] at h
      simp [getCell_setCell_ne _ _ _ _ hne, ih vs h]

theorem colVals_setColVals_self (df : DF) (c : String) (vals : List String)
    (h : vals.length = df.rows.length) :
    (df.setColVals c vals).colVals c = vals.map some := by
  have := zip_setCell_getCell_self df.rows vals c h
  simpa [DF.colVals, DF.setColVals, List.map_map, Function.comp] using this

theorem colVals_setColVals_ne (df : DF) (c : String) (vals : List String) (c2 : String)
    (hne : c2 ≠ c) (h : vals.length = df.rows.length) :
    (df.setColVals c vals).colVals c2 = df.colVals c2 := by
  have := zip_setCell_getCell_ne df.rows vals c c2 hne h
  simpa [DF.colVals, DF.setColVals, List.map_map, Function.comp] using this

theorem length_colStr (df : DF) (c : String) : (df.colStr c).length = df.rows.length := by
  simp [DF.colStr]

theorem hasCol_setColVals_of (df : DF) (c : String) (vals : List String) (c2 : String)
    (h : df.hasCol c2 = true) : (df.setColVals c vals).hasCol c2 = true := by
  rw [hasCol_iff] at h ⊢
  by_cases hc : c ∈ df.cols <;> simp [DF.setColVals, DF.hasCol, hc, List.mem_append, h]

/-! ## Fill-loop lemmas -/

theorem rows_length_ncFillStep (df : DF) (col : String) :
    (ncFillStep df col).rows.length = df.rows.length := by
  unfold ncFillStep
  split
  · rfl
  · split <;> simp [DF.setColConst]

theorem ncFillStep_preserves (df : DF) (col c : String) (h : df.hasCol c = true) :
    (ncFillStep df col).hasCol c = true ∧ (ncFillStep df col).colVals c = df.colVals c := by
  unfold ncFillStep
  by_cases h1 : df.hasCol col
  · simp [h1, h]
  · have hne : c ≠ col := by rintro rfl; rw [h] at h1; exact h1 rfl
    by_cases h2 : col == "Statut" <;>
      simp [h1, h2, hasCol_setColConst_of _ _ _ _ h, colVals_setColConst_ne _ _ _ _ hne]

theorem foldl_ncFillStep_preserves (L : List String) (df : DF) (c : String)
    (h : df.hasCol c = true) :
    (L.foldl ncFillStep df).hasCol c = true ∧
      (L.foldl ncFillStep df).colVals c = df.colVals c := by
  induction L generalizing df with
  | nil => exact ⟨h, rfl⟩
  | cons col L ih =>
    obtain ⟨h1, h2⟩ := ncFillStep_preserves df col c h
    obtain ⟨h3, h4⟩ := ih (ncFillStep df col) h1
    exact ⟨h3, by rw [List.foldl_cons, h4, h2]⟩

theorem ncFillStep_hasCol_false (df : DF) (col c : String) (hne : col ≠ c)
    (h : df.hasCol c = false) : (ncFillStep df col).hasCol c = false := by
  unfold ncFillStep
  by_cases h1 : df.hasCol col
  · simp [h1, h]
  · by_cases h2 : col == "Statut" <;>
      simp [h1, h2, hasCol_setColConst_ne _ _ _ _ (Ne.symm hne), h]

theorem ncFillStep_sets (df : DF) (c : String) (h : df.hasCol c = false) :
    ncFillStep df c = df.setColConst c (if c = "Statut" then "En attente" else "") := by
  unfold ncFillStep
  rw [if_neg (by simp [h])]
  by_cases h2 : c = "Statut"
  · rw [if_pos (by simp [h2]), if_pos h2]
  · rw [if_neg (by simp [h2]), if_neg h2]

theorem foldl_ncFillStep_sets (L : List String) (df : DF) (c : String)
    (hmem : c ∈ L) (hnd : L.Nodup) (h : df.hasCol c = false) :
    (L.foldl ncFillStep df).colVals c =
      List.replicate df.rows.length (some (if c = "Statut" then "En attente" else "")) := by
  induction L generalizing df with
  | nil => cases hmem
  | cons col L ih =>
    rw [List.foldl_cons]
    rcases List.mem_cons.mp hmem with rfl | hmem2
    · rw [ncFillStep_sets df c h]
      have hself := hasCol_setColConst_self df c (if c = "Statut" then "En attente" else "")
      obtain ⟨-, hvals⟩ := foldl_ncFillStep_preserves L _ c hself
      rw [hvals, colVals_setColConst_self]
    · have hcol_ne : col ≠ c := by
        rintro rfl
        exact (List.nodup_cons.mp hnd).1 hmem2
      rw [ih (ncFillStep df col) hmem2 (List.nodup_cons.mp hnd).2
        (ncFillStep_hasCol_false df col c hcol_ne h), rows_length_ncFillStep]

theorem foldl_ncFillStep_id (L : List String) (df : DF)
    (h : ∀ col ∈ L, df.hasCol col = true) : L.foldl ncFillStep df = df := by
  induction L with
  | nil => rfl
  | cons col L ih =>
    rw [List.foldl_cons, show ncFillStep df col = df by
      unfold ncFillStep; simp [h col (by simp)]]
    exact ih fun c hc => h c (by simp [hc])

theorem ensureNCCols_id (df : DF) (h : ∀ col ∈ communication_columns, df.hasCol col = true) :
    ensureNCCols df = df :=
  foldl_ncFillStep_id _ df h

theorem ensureCommCols_id (df : DF) (h1 : df.hasCol "Commentaire du reviewer" = true)
    (h2 : df.hasCol "Réponse de l\x27auditeur" = true) : ensureCommCols df = df := by
  simp [ensureCommCols, h1, h2]

theorem ensureCommCols_eq_of_present (df : DF)
    (h1 : df.hasCol "Commentaire du reviewer" = true) :
    ensureCommCols df =
      (if df.hasCol "Réponse de l\x27auditeur" then df
       else df.setColConst "Réponse de l\x27auditeur" "") := by
  unfold ensureCommCols
  simp only [h1, if_true]

theorem ensureCommCols_eq_of_absent (df : DF)
    (h1 : df.hasCol "Commentaire du reviewer" = false) :
    ensureCommCols df =
      (if (DF.setColFromGet df "Commentaire du reviewer" "Commentaire").hasCol
          "Réponse de l\x27auditeur"
       then DF.setColFromGet df "Commentaire du reviewer" "Commentaire"
       else (DF.setColFromGet df "Commentaire du reviewer" "Commentaire").setColConst
          "Réponse de l\x27auditeur" "") := by
  unfold ensureCommCols
  simp only [h1, Bool.false_eq_true, if_false]

theorem ensureCommCols_fills_legacy (df : DF)
    (h1 : df.hasCol "Commentaire du reviewer" = false)
    (h2 : df.hasCol "Commentaire" = true) :
    (ensureCommCols df).colVals "Commentaire du reviewer" =
      (df.colStr "Commentaire").map some := by
  have hner : ("Commentaire du reviewer" : String) ≠ "Réponse de l\x27auditeur" := by decide
  have base : DF.setColFromGet df "Commentaire du reviewer" "Commentaire" =
      df.setColVals "Commentaire du reviewer" (df.colStr "Commentaire") := by
    unfold DF.setColFromGet
    rw [if_pos h2]
  have hvals := colVals_setColVals_self df "Commentaire du reviewer"
    (df.colStr "Commentaire") (length_colStr df _)
  rw [ensureCommCols_eq_of_absent df h1]
  split
  · rw [base, hvals]
  · rw [base, colVals_setColConst_ne _ _ _ _ hner, hvals]

theorem ensureCommCols_fills_empty (df : DF)
    (h1 : df.hasCol "Commentaire du reviewer" = false)
    (h2 : df.hasCol "Commentaire" = false) :
    (ensureCommCols df).colVals "Commentaire du reviewer" =
      List.replicate df.rows.length (some "") := by
  have hner : ("Commentaire du reviewer" : String) ≠ "Réponse de l\x27auditeur" := by decide
  have base : DF.setColFromGet df "Commentaire du reviewer" "Commentaire" =
      df.setColConst "Commentaire du reviewer" "" := by
    unfold DF.setColFromGet
    rw [if_neg (by simp [h2])]
  rw [ensureCommCols_eq_of_absent df h1]
  split
  · rw [base, colVals_setColConst_self]
  · rw [base, colVals_setColConst_ne _ _ _ _ hner, colVals_setColConst_self]

theorem ensureCommCols_preserves (df : DF) (c : String) (h : df.hasCol c = true) :
    (ensureCommCols df).hasCol c = true ∧ (ensureCommCols df).colVals c = df.colVals c := by
  by_cases h1 : df.hasCol "Commentaire du reviewer"
  · rw [ensureCommCols_eq_of_present df h1]
    by_cases h2 : df.hasCol "Réponse de l\x27auditeur"
    · rw [if_pos h2]
      exact ⟨h, rfl⟩
    · have hne : c ≠ "Réponse de l\x27auditeur" := by
        rintro rfl; rw [h] at h2; exact h2 rfl
      rw [if_neg h2]
      exact ⟨hasCol_setColConst_of _ _ _ _ h, colVals_setColConst_ne _ _ _ _ hne⟩
  · have h1' : df.hasCol "Commentaire du reviewer" = false := by simpa using h1
    have hne1 : c ≠ "Commentaire du reviewer" := by
      rintro rfl; rw [h] at h1'; simp at h1'
    have s1 : (DF.setColFromGet df "Commentaire du reviewer" "Commentaire").hasCol c = true := by
      unfold DF.setColFromGet
      by_cases h2 : df.hasCol "Commentaire"
      · rw [if_pos h2]; exact hasCol_setColVals_of _ _ _ _ h
      · rw [if_neg (by simp [h2])]; exact hasCol_setColConst_of _ _ _ _ h
    have s2 : (DF.setColFromGet df "Commentaire du reviewer" "Commentaire").colVals c =
        df.colVals c := by
      unfold DF.setColFromGet
      by_cases h2 : df.hasCol "Commentaire"
      · rw [if_pos h2]; exact colVals_setColVals_ne _ _ _ _ hne1 (length_colStr df _)
      · rw [if_neg (by simp [h2])]; exact colVals_setColConst_ne _ _ _ _ hne1
    rw [ensureCommCols_eq_of_absent df h1']
    by_cases h3 : (DF.setColFromGet df "Commentaire du reviewer" "Commentaire").hasCol
        "Réponse de l\x27auditeur"
    · rw [if_pos h3]
      exact ⟨s1, s2⟩
    · have hne2 : c ≠ "Réponse de l\x27auditeur" := by
        rintro rfl; rw [s1] at h3; exact h3 rfl
      rw [if_neg h3]
      exact ⟨hasCol_setColConst_of _ _ _ _ s1, by
        rw [colVals_setColConst_ne _ _ _ _ hne2, s2]⟩

theorem hasCol_setColVals_ne (df : DF) (c : String) (vals : List String) (c2 : String)
    (h : c2 ≠ c) : (df.setColVals c vals).hasCol c2 = df.hasCol c2 := by
  by_cases hc : df.hasCol c
  · have hmem : c ∈ df.cols := (hasCol_iff df c).mp hc
    simp [DF.setColVals, DF.hasCol, hmem]
  · cases hb : df.hasCol c2 with
    | true => rw [hasCol_setColVals_of df c vals c2 hb]
    | false =>
      rw [Bool.eq_false_iff]
      intro hcontra
      rw [hasCol_iff] at hcontra
      simp only [DF.setColVals, if_neg hc] at hcontra
      rcases List.mem_append.mp hcontra with hm | hm
      · exact absurd ((hasCol_iff df c2).mpr hm) (by simp [hb])
      · exact h (List.mem_singleton.mp hm)

theorem rows_length_setColVals (df : DF) (c : String) (vals : List String)
    (hlen : vals.length = df.rows.length) :
    (df.setColVals c vals).rows.length = df.rows.length := by
  simp [DF.setColVals, hlen]

theorem rows_length_setColFromGet (df : DF) (c src : String) :
    (DF.setColFromGet df c src).rows.length = df.rows.length := by
  unfold DF.setColFromGet
  split
  · exact rows_length_setColVals df c _ (length_colStr df src)
  · exact rows_length_setColConst df c ""

theorem ensureCommCols_fills_auditor (df : DF)
    (h2 : df.hasCol "Réponse de l\x27auditeur" = false) :
    (ensureCommCols df).colVals "Réponse de l\x27auditeur" =
      List.replicate df.rows.length (some "") := by
  by_cases h1 : df.hasCol "Commentaire du reviewer"
  · rw [ensureCommCols_eq_of_present df h1, if_neg (by simp [h2])]
    exact colVals_setColConst_self df _ _
  · have h1' : df.hasCol "Commentaire du reviewer" = false := by simpa using h1
    rw [ensureCommCols_eq_of_absent df h1']
    have hne : ("Réponse de l\x27auditeur" : String) ≠ "Commentaire du reviewer" := by decide
    have habs : (DF.setColFromGet df "Commentaire du reviewer" "Commentaire").hasCol
        "Réponse de l\x27auditeur" = false := by
      unfold DF.setColFromGet
      split
      · rw [hasCol_setColVals_ne _ _ _ _ hne, h2]
      · rw [hasCol_setColConst_ne _ _ _ _ hne, h2]
    rw [if_neg (by simp [habs]), colVals_setColConst_self, rows_length_setColFromGet]

/-- C8 (amended): in the work-save export no caller-supplied column is
dropped or renamed, and every schema column absent from the in-memory table
is synthesized — with the empty string everywhere EXCEPT that the
non-conformity Statut column is synthesized as En attente and that a
missing Commentaire du reviewer on the profile or checklist sheet is filled
from the legacy Commentaire column when that column exists. -/
theorem c8_export_column_fill (e : DF) :
    ((∀ c, e.hasCol c = true →
        (ensureNCCols e).hasCol c = true ∧ (ensureNCCols e).colVals c = e.colVals c) ∧
      ∀ c ∈ communication_columns, e.hasCol c = false →
        (ensureNCCols e).colVals c =
          List.replicate e.rows.length
            (some (if c = "Statut" then "En attente" else ""))) ∧
      (∀ c, e.hasCol c = true →
        (ensureCommCols e).hasCol c = true ∧ (ensureCommCols e).colVals c = e.colVals c) ∧
      (e.hasCol "Commentaire du reviewer" = false → e.hasCol "Commentaire" = true →
        (ensureCommCols e).colVals "Commentaire du reviewer" =
          (e.colStr "Commentaire").map some) ∧
      (e.hasCol "Commentaire du reviewer" = false → e.hasCol "Commentaire" = false →
        (ensureCommCols e).colVals "Commentaire du reviewer" =
          List.replicate e.rows.length (some "")) ∧
      (e.hasCol "Réponse de l\x27auditeur" = false →
        (ensureCommCols e).colVals "Réponse de l\x27auditeur" =
          List.replicate e.rows.length (some "")) := by
  refine ⟨⟨fun c hc => foldl_ncFillStep_preserves _ e c hc, fun c hmem hc => ?_⟩,
    fun c hc => ensureCommCols_preserves e c hc,
    ensureCommCols_fills_legacy e, ensureCommCols_fills_empty e,
    ensureCommCols_fills_auditor e⟩
  exact foldl_ncFillStep_sets _ e c hmem (by decide) hc

/-- A non-conformity table with only a business column. -/
def bareNC : DF := ⟨["Num"], [[("Num", "1.2.3")]]⟩

/-- C8 counterexample: the synthesized Statut column holds En attente, not
the empty string the claim asserts. -/
theorem c8_statut_counterexample :
    (ensureNCCols bareNC).colVals "Statut" = [some "En attente"] ∧
      ("En attente" : String) ≠ "" :=
  ⟨rfl, by decide⟩

/-- Witness for C8 at a concrete table lacking all schema columns. -/
theorem c8_export_column_fill_witness :
    (ensureNCCols bareNC).colVals "Plan d\x27action proposé" =
      List.replicate bareNC.rows.length
        (some (if ("Plan d\x27action proposé" : String) = "Statut" then "En attente"
          else "")) :=
  (c8_export_column_fill bareNC).1.2 "Plan d\x27action proposé" (by decide) (by decide)

/-- C6 (amended): the import returns an error exactly when the METADATA
sheet is absent, has no first row, its first row lacks the Type, COID or
Date column, or the Type marker differs from IFS_WORK_SAVE; on success it
returns the three per-collection tables looked up by their current or
legacy sheet names. -/
theorem c6_import_error_iff (wb : Workbook) :
    ((∃ wd, load_work_from_excel wb = .ok wd) ↔
      ∃ md row0, lookupSheet wb "METADATA" = some md ∧ md.rows.head? = some row0 ∧
        getCell row0 "Type" = some "IFS_WORK_SAVE" ∧ (getCell row0 "COID").isSome = true ∧
        (getCell row0 "Date").isSome = true) ∧
      ∀ wd, load_work_from_excel wb = .ok wd →
        wd = ⟨firstSheet wb "Profile_Communication" "Profile_Work",
              firstSheet wb "Checklist_Communication" "Checklist_Work",
              firstSheet wb "NonConformities_ActionPlan" "NonConformities_Work"⟩ := by
  unfold load_work_from_excel
  cases hmd : lookupSheet wb "METADATA" with
  | none => simp [hmd]
  | some md =>
    cases hrow : md.rows.head? with
    | none => simp [hmd, hrow]
    | some row0 =>
      cases hty : getCell row0 "Type" with
      | none => simp [hmd, hrow, hty]
      | some ty =>
        by_cases hts : ty = "IFS_WORK_SAVE"
        · subst hts
          cases hcoid : getCell row0 "COID" with
          | none => simp [hmd, hrow, hty, hcoid]
          | some x =>
            cases hdate : getCell row0 "Date" with
            | none => simp [hmd, hrow, hty, hcoid, hdate]
            | some y => simp [hmd, hrow, hty, hcoid, hdate]
        · simp [hmd, hrow, hty, hts]

/-- A metadata sheet carrying only the marker column. -/
def markerOnlyMeta : DF := ⟨["Type"], [[("Type", "IFS_WORK_SAVE")]]⟩

/-- C6 counterexample: the marker is present and matches, yet the import
returns an error result (the COID read raises), so a matching marker does
not suffice for success. -/
theorem c6_import_counterexample :
    markerOnlyMeta.rows.head? = some [("Type", "IFS_WORK_SAVE")] ∧
      getCell [("Type", "IFS_WORK_SAVE")] "Type" = some "IFS_WORK_SAVE" ∧
      load_work_from_excel [("METADATA", markerOnlyMeta)] =
        .error "Erreur lors du chargement du fichier de travail: KeyError: COID" :=
  ⟨rfl, rfl, rfl⟩

/-- Witness for C6 on a complete well-formed workbook. -/
theorem c6_import_error_iff_witness :
    (∃ wd, load_work_from_excel [("METADATA",
        (⟨["Type", "COID", "Date"],
          [[("Type", "IFS_WORK_SAVE"), ("COID", "c1"), ("Date", "d1")]]⟩ : DF))] = .ok wd) ↔
      ∃ md row0, lookupSheet [("METADATA",
          (⟨["Type", "COID", "Date"],
            [[("Type", "IFS_WORK_SAVE"), ("COID", "c1"), ("Date", "d1")]]⟩ : DF))]
          "METADATA" = some md ∧
        md.rows.head? = some row0 ∧ getCell row0 "Type" = some "IFS_WORK_SAVE" ∧
        (getCell row0 "COID").isSome = true ∧ (getCell row0 "Date").isSome = true :=
  (c6_import_error_iff [("METADATA",
    (⟨["Type", "COID", "Date"],
      [[("Type", "IFS_WORK_SAVE"), ("COID", "c1"), ("Date", "d1")]]⟩ : DF))]).1

/-- C1: a work-save export reimports successfully (the marker matches) and
hands back the profile, checklist and non-conformity tables unchanged —
commentary columns included — with the non-conformity table present exactly
when the exported non-conformity list was nonempty. -/
theorem c1_work_save_roundtrip (profile_data : List (String × String))
    (checklist_data non_conf : List ChecklistItem) (eP eC eNC : DF) (coid now : String)
    (hp1 : eP.hasCol "Commentaire du reviewer" = true)
    (hp2 : eP.hasCol "Réponse de l\x27auditeur" = true)
    (hc1 : eC.hasCol "Commentaire du reviewer" = true)
    (hc2 : eC.hasCol "Réponse de l\x27auditeur" = true)
    (hnc : ∀ col ∈ communication_columns, eNC.hasCol col = true) :
    load_work_from_excel (save_work_to_excel profile_data checklist_data non_conf
        (some eP) (some eC) (some eNC) coid now) =
      .ok ⟨some eP, some eC, if non_conf.isEmpty then none else some eNC⟩ := by
  have e1 : ensureCommCols eP = eP := ensureCommCols_id eP hp1 hp2
  have e2 : ensureCommCols eC = eC := ensureCommCols_id eC hc1 hc2
  have e3 : ensureNCCols eNC = eNC := ensureNCCols_id eNC hnc
  by_cases h : non_conf.isEmpty <;>
    simp [save_work_to_excel, load_work_from_excel, lookupSheet, firstSheet, alookup,
      getCell, h, e1, e2, e3]

/-- The spec's round-trip scenario: profile row Site/Usine1 with reviewer
comment "ok". -/
def scenarioProfile : DF :=
  ⟨["Champ", "Valeur", "Commentaire du reviewer", "Réponse de l\x27auditeur"],
   [[("Champ", "Site"), ("Valeur", "Usine1"), ("Commentaire du reviewer", "ok"),
     ("Réponse de l\x27auditeur", "")]]⟩

/-- A small edited checklist table with the communication columns. -/
def scenarioChecklist : DF :=
  ⟨["Num", "Score", "Commentaire du reviewer", "Réponse de l\x27auditeur"],
   [[("Num", "1.2.3"), ("Score", "C"), ("Commentaire du reviewer", "à revoir"),
     ("Réponse de l\x27auditeur", "corrigé")]]⟩

/-- A small edited non-conformity table with all tracking columns. -/
def scenarioNC : DF :=
  ⟨["Num", "Score", "Commentaire du reviewer", "Réponse de l\x27auditeur",
    "Plan d\x27action proposé", "Actions mises en place", "Date limite", "Responsable",
    "Statut"],
   [[("Num", "1.2.3"), ("Score", "C"), ("Commentaire du reviewer", "nc comm"),
     ("Réponse de l\x27auditeur", ""), ("Plan d\x27action proposé", "plan"),
     ("Actions mises en place", ""), ("Date limite", "2026-01-01"),
     ("Responsable", "QA"), ("Statut", "En cours")]]⟩

/-- Witness for C1 at the spec's scenario tables. -/
theorem c1_work_save_roundtrip_witness :
    load_work_from_excel (save_work_to_excel [("Site", "Usine1")] [witnessRecord]
        [witnessRecord] (some scenarioProfile) (some scenarioChecklist) (some scenarioNC)
        "coid-1" "2026-10-12") =
      .ok ⟨some scenarioProfile, some scenarioChecklist,
        if ([witnessRecord] : List ChecklistItem).isEmpty then none else some scenarioNC⟩ :=
  c1_work_save_roundtrip [("Site", "Usine1")] [witnessRecord] [witnessRecord]
    scenarioProfile scenarioChecklist scenarioNC "coid-1" "2026-10-12"
    (by decide) (by decide) (by decide) (by decide) (by decide)

/-- A non-conformity sheet carrying only legacy column names. -/
def legacyNCSheet : DF :=
  ⟨["Num", "Score", "Commentaire", "Plan d\x27action"],
   [[("Num", "1.2.3"), ("Score", "C"), ("Commentaire", "ancien commentaire"),
     ("Plan d\x27action", "ancien plan")]]⟩

/-- A checklist sheet carrying only the legacy comment column. -/
def legacyChecklistSheet : DF :=
  ⟨["Num", "Commentaire"], [[("Num", "1.2.3"), ("Commentaire", "ancien commentaire")]]⟩

/-- C7: on the resumed-work non-conformities tab a sheet with only the
legacy columns ends with EMPTY current columns — the required-columns loop
of source lines 1325-1330 creates them before the legacy checks of lines
1333-1336 run, so those checks never fire and the legacy values are not
copied; the checklist tab (source lines 1193-1200, which checks before
filling) does copy the legacy value. -/
theorem c7_nc_alias_dead :
    (ncTabTransform legacyNCSheet).colVals "Plan d\x27action proposé" = [some ""] ∧
      (ncTabTransform legacyNCSheet).colVals "Commentaire du reviewer" = [some ""] ∧
      legacyNCSheet.colVals "Plan d\x27action" = [some "ancien plan"] ∧
      legacyNCSheet.colVals "Commentaire" = [some "ancien commentaire"] ∧
      (checklistTabTransform legacyChecklistSheet).colVals "Commentaire du reviewer" =
        [some "ancien commentaire"] :=
  ⟨rfl, rfl, rfl, rfl, rfl⟩

end NeoRevue
